import Mathlib

/-!
Verification development for the survey-element tree model of
`pyxform/survey_element.py`: a shallow embedding of the Python module's
data model (dict-backed survey elements with type-default overlay
semantics) and of its operations (attribute resolution, lineage/xpath,
annotated-label synthesis, translation extraction, binding / action /
label fragment generation, plain-tree serialization), together with
theorems settling the specification's claims about them.

Python values flowing through the module are modelled by `Value`
(strings, string-keyed insertion-ordered dicts, lists, booleans, None);
fallible Python code (exceptions such as AttributeError / ValueError /
TypeError / KeyError / PyXFormError) is modelled with `Except String`.
-/

/-- A Python value as used by `survey_element.py`: a string, a dict with
string keys (kept as an insertion-ordered association list, matching
Python dict semantics), a list, a boolean, or None. -/
inductive Value where
  | vs (s : String)
  | vd (entries : List (String × Value))
  | vl (elems : List Value)
  | vb (b : Bool)
  | vnone

/-- Python truthiness for a `Value`: empty string / dict / list, `False`
and `None` are falsy, everything else truthy. -/
def truthy : Value → Bool
  | .vs s => !s.isEmpty
  | .vd d => !d.isEmpty
  | .vl l => !l.isEmpty
  | .vb b => b
  | .vnone => false

/-- `d.get(k)` on a Python dict: first entry with the given key. -/
def dictGet? (d : List (String × Value)) (k : String) : Option Value :=
  match d with
  | [] => none
  | (k', v) :: rest => if k' == k then some v else dictGet? rest k

/-- `k in d` on a Python dict. -/
def dictHas (d : List (String × Value)) (k : String) : Bool :=
  (dictGet? d k).isSome

/-- `d[k] = v` on a Python dict: overwrite in place if the key exists
(keeping its position), otherwise append at the end. -/
def dictSet (d : List (String × Value)) (k : String) (v : Value) :
    List (String × Value) :=
  match d with
  | [] => [(k, v)]
  | (k', v') :: rest =>
      if k' == k then (k, v) :: rest else (k', v') :: dictSet rest k v

/-- `del d[k]` on a Python dict (no error if absent; callers check). -/
def dictRemove (d : List (String × Value)) (k : String) :
    List (String × Value) :=
  d.filter (fun p => p.1 != k)

/-- `d.update(d2)` on a Python dict. -/
def dictUpdate (d d2 : List (String × Value)) : List (String × Value) :=
  d2.foldl (fun acc p => dictSet acc p.1 p.2) d

/-- Modelled from the spec: the compact-tag field-name constant
(`constants.COMPACT_TAG`, defined outside this module). -/
def COMPACT_TAG : String := "instance_name"

/-- Modelled from the spec: the internal code for single-choice questions
(`constants.SELECT_ONE`); the annotation synthesizer turns its spaces into
underscores to display `select_one`. -/
def SELECT_ONE : String := "select one"

/-- Modelled from the spec: the internal code for multiple-choice
questions (`constants.SELECT_ALL_THAT_APPLY`), displayed as
`select_multiple`. -/
def SELECT_ALL_THAT_APPLY : String := "select all that apply"

/-- Modelled from the spec: the repeat type tag (`constants.REPEAT`). -/
def REPEAT : String := "repeat"

/-- The declared field set of a survey element with each field's default
value, transcribed from `SurveyElement.FIELDS` (each default is the
zero-argument constructor given there: `str` ↦ `""`, `dict` ↦ `{}`,
`list` ↦ `[]`, `lambda: None` ↦ None, `lambda: False` ↦ `False`). -/
def FIELDS : List (String × Value) := [
  ("name", .vs ""),
  (COMPACT_TAG, .vs ""),
  ("sms_field", .vs ""),
  ("sms_option", .vs ""),
  ("label", .vs ""),
  ("hint", .vs ""),
  ("guidance_hint", .vs ""),
  ("default", .vs ""),
  ("type", .vs ""),
  ("appearance", .vs ""),
  ("parameters", .vd []),
  ("intent", .vs ""),
  ("jr:count", .vs ""),
  ("bind", .vd []),
  ("instance", .vd []),
  ("control", .vd []),
  ("media", .vd []),
  ("parent", .vnone),
  ("children", .vl []),
  ("itemset", .vs ""),
  ("choice_filter", .vs ""),
  ("query", .vs ""),
  ("autoplay", .vs ""),
  ("flat", .vb false),
  ("action", .vs ""),
  ("list_name", .vs ""),
  ("trigger", .vs ""),
  ("annotated_fields", .vd [])
]

/-- `hasattr(element, key)` for survey elements: `__getattr__` answers
exactly the keys of `FIELDS` and raises AttributeError otherwise. -/
def hasattrF (key : String) : Bool :=
  FIELDS.any (fun p => p.1 == key)

/-- A survey element: the underlying dict (all non-tree fields, as stored;
missing keys fall back to the `FIELDS` default set by `__init__`) plus the
owned ordered children. The `parent` back-reference is represented by the
root-to-parent ancestor path threaded through the operations below. -/
inductive SE where
  | node (fields : List (String × Value)) (children : List SE)

def SE.fields : SE → List (String × Value)
  | .node f _ => f

def SE.children : SE → List SE
  | .node _ c => c

/-- `self.get(key)` / `self[key]` on the element's underlying dict; every
`FIELDS` key is present after `__init__`, holding its default if no
keyword argument supplied it. -/
def getRaw (e : SE) (key : String) : Value :=
  match dictGet? e.fields key with
  | some v => v
  | none =>
      match dictGet? FIELDS key with
      | some v => v
      | none => .vnone

/-- `d.update(seq)` on a Python dict for a list argument: each element
must be a two-element sequence — a `[key, value]` list with a string
key, or a two-character string (its characters become key and value);
shorter or longer elements raise ValueError and non-sequence elements
TypeError. -/
def dictUpdateSeq (d : List (String × Value)) :
    List Value → Except String (List (String × Value))
  | [] => .ok d
  | .vs s :: rest =>
      match s.data with
      | [c1, c2] =>
          dictUpdateSeq (dictSet d (String.singleton c1)
            (.vs (String.singleton c2))) rest
      | _ => .error "ValueError: dictionary update sequence element has wrong length"
  | .vl [.vs k, v] :: rest => dictUpdateSeq (dictSet d k v) rest
  | .vl _ :: _ => .error "ValueError: dictionary update sequence element has wrong length"
  | _ :: _ => .error "TypeError: cannot convert dictionary update sequence element to a sequence"

/-- `_overlay(over, under)` from the source: when `under` is a dict the
result is a copy of `under` updated with `over` — `dict.update` accepts a
dict (merge), an empty string (iterating it yields nothing), and a list
of key/value pairs, and raises ValueError on a non-empty string (each
character is a length-1 sequence) and TypeError on bool/None; when
`under` is not a dict the result is `over` if truthy else `under`. -/
def _overlay (over under : Value) : Except String Value :=
  match under with
  | .vd ud =>
      match over with
      | .vd od => .ok (.vd (dictUpdate ud od))
      | .vs s =>
          if s.isEmpty then .ok (.vd ud)
          else .error "ValueError: dictionary update sequence element has length 1; 2 is required"
      | .vl l => (dictUpdateSeq ud l).map (fun d => .vd d)
      | .vb _ => .error "TypeError: object is not iterable"
      | .vnone => .error "TypeError: object is not iterable"
  | _ => .ok (if truthy over then over else under)

/-- The external collaborators the module consumes (spec section 6): the
question-type default table, the survey root's annotation flag and
ordered annotated-field list, the xpath-insertion and output-value
substitution delegates, and the dynamic-default predicate. -/
structure Ctx where
  question_type_dict : String → List (String × Value)
  is_annotated_form : Bool
  annotated_fields : List String
  insert_xpaths : Value → Value
  insert_output_values : String → String × Bool
  default_is_dynamic : Value → Value → Bool

/-- `self._default()`: the type-default table entry for this element's
stored type (`QUESTION_TYPE_DICT.get(self.get("type"), {})`; a non-string
stored type is simply absent from the table, giving `{}`). -/
def _default (ctx : Ctx) (e : SE) : List (String × Value) :=
  match getRaw e "type" with
  | .vs t => ctx.question_type_dict t
  | _ => []

/-- `__getattr__(self, key)`: for a `FIELDS` key, overlay the stored value
over the type default (returning the stored value directly when the type
default is falsy); AttributeError otherwise. -/
def getattrE (ctx : Ctx) (e : SE) (key : String) : Except String Value :=
  if hasattrF key then
    let under := (dictGet? (_default ctx e) key).getD .vnone
    let over := getRaw e key
    if truthy under then _overlay over under else .ok over
  else .error ("AttributeError: " ++ key)

/-- Using a Python value where a `str` is required (string concatenation,
`str.join`, `re.search`, `str.copy`-free methods); non-strings raise. -/
def asStr : Value → Except String String
  | .vs s => .ok s
  | _ => .error "TypeError: expected str"

mutual

/-- Python `repr(value)` as used inside the rendering of containers:
strings are quoted, dicts and lists render their elements
recursively. -/
def pyReprV : Value → String
  | .vs s => "\x27" ++ s ++ "\x27"
  | .vb b => if b then "True" else "False"
  | .vnone => "None"
  | .vd d => "\x7b" ++ pyReprPairs d ++ "\x7d"
  | .vl l => "[" ++ pyReprList l ++ "]"

/-- `repr` of dict entries, comma-separated. -/
def pyReprPairs : List (String × Value) → String
  | [] => ""
  | [(k, v)] => pyReprV (.vs k) ++ ": " ++ pyReprV v
  | (k, v) :: rest =>
      pyReprV (.vs k) ++ ": " ++ pyReprV v ++ ", " ++ pyReprPairs rest

/-- `repr` of list elements, comma-separated. -/
def pyReprList : List Value → String
  | [] => ""
  | [v] => pyReprV v
  | v :: rest => pyReprV v ++ ", " ++ pyReprList rest

end

/-- `str(value)` as used by `"...".format(value)` and `%s`: strings
render themselves; other values render as Python does (booleans and
None by name, containers through `repr` of their elements). -/
def pyStr : Value → String
  | .vs s => s
  | .vb b => if b then "True" else "False"
  | .vnone => "None"
  | .vd d => pyReprV (.vd d)
  | .vl l => pyReprV (.vl l)

/-- `needle in haystack` on Python strings (substring test). -/
def strContains (s pat : String) : Bool :=
  go s.data
where
  go : List Char → Bool
    | [] => pat.data.isPrefixOf []
    | c :: rest => pat.data.isPrefixOf (c :: rest) || go rest

/-- Number of occurrences of a character in a string. -/
def countChar (s : String) (c : Char) : Nat :=
  s.data.count c

/-- The character-consuming loop of `pyReplace`: at skip count zero,
emit the replacement where the pattern matches (then skip the rest of
the matched pattern), otherwise copy one character. -/
def replaceLoop (pat rep : List Char) : List Char → Nat → List Char
  | [], _ => []
  | _ :: rest, Nat.succ k => replaceLoop pat rep rest k
  | c :: rest, 0 =>
      if pat.isPrefixOf (c :: rest) then
        rep ++ replaceLoop pat rep rest (pat.length - 1)
      else c :: replaceLoop pat rep rest 0

/-- Python `s.replace(pat, rep)`: non-overlapping left-to-right
replacement of every occurrence (for the non-empty patterns this module
uses). -/
def pyReplace (s pat rep : String) : String :=
  (replaceLoop pat.data rep.data s.data 0).asString

/-- Python `s.split(sep)` for the single-character separators this
module uses. -/
def splitOnChar (sep : Char) : List Char → List String
  | [] => [""]
  | c :: rest =>
      match splitOnChar sep rest with
      | [] => if c == sep then ["", ""] else [String.singleton c]
      | h :: t =>
          if c == sep then "" :: h :: t
          else (String.singleton c ++ h) :: t

/-- Python `s.startswith(prefix)`. -/
def pyStartsWith (s pre : String) : Bool :=
  pre.data.isPrefixOf s.data

/-- Python `s[n:]` (drop the first `n` characters). -/
def pyDrop (s : String) (n : Nat) : String :=
  (s.data.drop n).asString

/-- Python `s.strip()`: remove leading and trailing whitespace. -/
def pyStrip (s : String) : String :=
  (((s.data.dropWhile Char.isWhitespace).reverse.dropWhile
    Char.isWhitespace).reverse).asString

/-- `key in value` on a Python value: key membership for dicts, substring
test for strings; other values do not support `in`. -/
def pyIn (needle : String) (v : Value) : Except String Bool :=
  match v with
  | .vd d => .ok (dictHas d needle)
  | .vs s => .ok (strContains s needle)
  | .vl l => .error ("unsupported: list membership " ++ needle ++ " " ++ toString l.length)
  | _ => .error "TypeError: argument is not iterable"

/-- Python `str.title()`: a letter is uppercased when the previous
character is not a letter and lowercased otherwise. -/
def titleCase (s : String) : String :=
  (go false s.data).asString
where
  go : Bool → List Char → List Char
    | _, [] => []
    | prevAlpha, c :: rest =>
        if c.isAlpha then
          (if prevAlpha then c.toLower else c.toUpper) :: go true rest
        else c :: go false rest

/-- The line-boundary characters of Python `str.splitlines`. -/
def splitlinesBoundaries : List Char :=
  ['\n', '\r', '\x0b', '\x0c', '\x1c', '\x1d', '\x1e', '\x85',
   '\u2028', '\u2029']

/-- `"".join(value.splitlines())`: drop every line-boundary
character. -/
def stripNewlines (s : String) : String :=
  (s.data.filter (fun c => !splitlinesBoundaries.contains c)).asString

/-- Modelled from the spec: scanner for `BRACKETED_TAG_REGEX` matches
(`pyxform.utils`, outside this module). With state `none` it looks for
the start `${` of the next token; with state `some acc` it is inside a
candidate token, which ends at the first following `}` (non-greedy); if
no `}` remains the pattern cannot match anywhere further. -/
def btScan : List Char → Option (List Char) → List String
  | [], _ => []
  | c :: rest, some acc =>
      if c == '\x7d' then
        ("$\x7b" ++ acc.reverse.asString ++ "\x7d") :: btScan rest none
      else btScan rest (some (c :: acc))
  | '$' :: '\x7b' :: rest, none => btScan rest (some [])
  | _ :: rest, none => btScan rest none

/-- Modelled from the spec: the bracketed-reference-token matches of
`BRACKETED_TAG_REGEX`: each non-overlapping occurrence of `${` up to the
first following `}`, returned with its delimiters, in order
(`re.finditer(...).group()`). -/
def bracketedTags (s : String) : List String :=
  btScan s.data none

/-- Modelled from the spec: `re.search(BRACKETED_TAG_REGEX, s)` succeeds
iff the string contains a bracketed reference token. -/
def hasBracketedTag (s : String) : Bool :=
  !(bracketedTags s).isEmpty

/-- The inner helper of `annotated_value_processing`: prepend every
underscore with a backslash (`"\_".join(value.split("_"))`). -/
def prepend_underscore_with_backslash (value : String) : String :=
  "\\_".intercalate (splitOnChar '_' value.data)

/-- `SurveyElement.annotated_value_processing(value, field_name)`: the
per-field escaping pipeline — pass-through fields; backslash-escaping of
underscores (inside bracketed tokens only, for labels); `>`/`<` to
`gt`/`lt` and `*` to `\*` for the expression-bearing fields; braces to
square brackets for everything. -/
def annotated_value_processing (value : String) (field_name : String) :
    String :=
  let attr_value := value
  if field_name ∈ ["readonly", "external", "contactdata", "constraint_type",
      "required_type", "identifier"] then
    attr_value
  else
    let attr_value :=
      if field_name != "choices" then
        let attr_value :=
          if field_name == "label" then
            let refs_in_label := bracketedTags value
            refs_in_label.foldl
              (fun acc ref =>
                pyReplace acc ref (prepend_underscore_with_backslash ref))
              attr_value
          else prepend_underscore_with_backslash attr_value
        let attr_value :=
          if field_name ∈ ["relevant", "required", "constraint", "default",
              "choice_filter", "calculation", "trigger", "repeat_count",
              "custom"] then
            pyReplace (pyReplace attr_value ">" "gt") "<" "lt"
          else attr_value
        let attr_value :=
          if field_name ∈ ["relevant", "constraint", "default", "calculation",
              "required", "custom"] then
            pyReplace attr_value "*" "\\*"
          else attr_value
        attr_value
      else attr_value
    pyReplace (pyReplace attr_value "\x7b" "[") "\x7d" "]"

/-- A parent-linked survey element as walked by `get_lineage`: the name
and `flat` flag of each node on the chain, with `parent` either absent
(root) or another such node. -/
inductive PElem where
  | root (name : String) (flat : Bool)
  | child (name : String) (flat : Bool) (parent : PElem)

def PElem.name : PElem → String
  | .root n _ => n
  | .child n _ _ => n

def PElem.flat : PElem → Bool
  | .root _ f => f
  | .child _ f _ => f

/-- The `while current_element.parent:` loop of `get_lineage`: starting
from `[self]`, repeatedly prepend the parent, producing `[root, ...,
self]`. -/
def lineageWalk : PElem → List PElem → List PElem
  | .root n f, acc => .root n f :: acc
  | .child n f p, acc => lineageWalk p (.child n f p :: acc)

/-- `SurveyElement.get_lineage`: the parent walk `[root, ..., self]`,
then keep the first node and drop every later node whose `flat` attribute
is truthy. -/
def get_lineage (e : PElem) : List PElem :=
  let result := lineageWalk e []
  match result with
  | [] => []
  | first :: rest => first :: rest.filter (fun item => !item.flat)

/-- `SurveyElement.get_xpath`: `"/".join([""] + [n.name for n in
self.get_lineage()])`. -/
def get_xpath (e : PElem) : String :=
  String.intercalate "/" ("" :: (get_lineage e).map PElem.name)

/-- The root-to-self parent chain written as the specification describes
it (`[root, ..., self]` by direct recursion); used to state the lineage
claim against `get_lineage`. -/
def rootToSelfChain : PElem → List PElem
  | .root n f => [.root n f]
  | .child n f p => rootToSelfChain p ++ [.child n f p]

/-- `get_lineage` for the children-linked tree representation: the
ancestor path `[root, ..., parent]` concatenated with the element itself,
filtered exactly as `get_lineage` filters the parent walk. -/
def lineageSE (ancs : List SE) (e : SE) : List SE :=
  match ancs ++ [e] with
  | [] => []
  | first :: rest =>
      first :: rest.filter (fun item => !(truthy (getRaw item "flat")))

/-- `SurveyElement.get_xpath` for the children-linked representation:
join the lineage names (each read through `__getattr__`, and required to
be a string by `str.join`) with `/` after an empty leading segment. -/
def getXpathSE (ctx : Ctx) (ancs : List SE) (e : SE) :
    Except String String := do
  let names ← (lineageSE ancs e).mapM
    (fun n => do asStr (← getattrE ctx n "name"))
  return String.intercalate "/" ("" :: names)

/-- `self._translation_path(display_element)`. -/
def _translation_path (ctx : Ctx) (ancs : List SE) (e : SE)
    (display_element : String) : Except String String := do
  return (← getXpathSE ctx ancs e) ++ ":" ++ display_element

mutual

/-- Python `==` between values as used by this module (string, bool,
None and structural dict/list comparisons). -/
def valueEq : Value → Value → Bool
  | .vs a, .vs b => a == b
  | .vd a, .vd b => valueEqPairs a b
  | .vl a, .vl b => valueEqList a b
  | .vb a, .vb b => a == b
  | .vnone, .vnone => true
  | _, _ => false

def valueEqPairs : List (String × Value) → List (String × Value) → Bool
  | [], [] => true
  | (k1, v1) :: r1, (k2, v2) :: r2 =>
      k1 == k2 && valueEq v1 v2 && valueEqPairs r1 r2
  | _, _ => false

def valueEqList : List Value → List Value → Bool
  | [], [] => true
  | v1 :: r1, v2 :: r2 => valueEq v1 v2 && valueEqList r1 r2
  | _, _ => false

end

/-- Python `value == s` for a string literal `s`: true exactly when the
value is that string. -/
def isStrV (v : Value) (s : String) : Bool :=
  match v with
  | .vs x => x == s
  | _ => false

/-- `SurveyElement.get_field_or_lang_dict_value(field, lang)`: non-dicts
pass through; with a language, the entry for it (KeyError caught as
`""`); without one, `next(iter(field))` — the first key (StopIteration
on an empty dict is not caught). -/
def get_field_or_lang_dict_value (field : Value) (lang : Option String) :
    Except String Value :=
  match field with
  | .vd d =>
      match lang with
      | some l => .ok ((dictGet? d l).getD (.vs ""))
      | none =>
          match d with
          | [] => .error "StopIteration"
          | (k, _) :: _ => .ok (.vs k)
  | f => .ok f

/-- `self.get(field, {}).get(key, "")` — the raw two-level dict lookups
of the annotation dispatch table (bind / media / instance); a non-dict
stored value has no `.get` method. -/
def rawDictGet (e : SE) (field key : String) : Except String Value :=
  match getRaw e field with
  | .vd d => .ok ((dictGet? d key).getD (.vs ""))
  | _ => .error ("AttributeError: object has no attribute get: " ++ field)

/-- `SurveyElement.OC_CUSTOM_ANNOTATION_PREFIX`. -/
def ocCustomAnnotationMarker : String := "oc:oc_annotation_"

/-- `SurveyElement.get_custom_annotations`: the stored bind entries whose
key starts with the custom-annotation marker. -/
def get_custom_annotations (e : SE) :
    Except String (List (String × Value)) :=
  match getRaw e "bind" with
  | .vd d => .ok (d.filter (fun p => pyStartsWith p.1 ocCustomAnnotationMarker))
  | _ => .error "AttributeError: object has no attribute items"

/-- `SurveyElement.check_custom_annotations`: every non-empty suffix
after the marker must consist of letters, digits, underscores and
hyphens only, and start with a letter or digit. -/
def check_custom_annotations (e : SE) : Except String Unit := do
  let customs ← get_custom_annotations e
  for p in customs do
    let lbl := pyDrop p.1 ocCustomAnnotationMarker.length
    if lbl != "" then
      if !(lbl.data.all fun c => c.isAlpha || c.isDigit || c == '_' || c == '-') then
        throw "Custom annotation labels can only include letters, digits, underscores, and hyphens."
      if !(lbl.data.head?.elim false fun c => c.isAlpha || c.isDigit) then
        throw "Custom annotation labels must start with a letter or digit."
  return ()

/-- Modelled from the spec: the annotation display-name constants from
the external `constants` module, as they appear in the rendered labels
exercised by the repository's tests. -/
def ANNOTATE_ITEMGROUP : String := "Item Group"

/-- Modelled from the spec: `constants.ANNOTATE_RELEVANT`. -/
def ANNOTATE_RELEVANT : String := "Show When"

/-- Modelled from the spec: `constants.ANNOTATE_REQUIRED_TYPE`. -/
def ANNOTATE_REQUIRED_TYPE : String := "Required Type"

/-- Modelled from the spec: `constants.ANNOTATE_CONSTRAINT_TYPE`. -/
def ANNOTATE_CONSTRAINT_TYPE : String := "Constraint Type"

/-- Modelled from the spec: `constants.ANNOTATE_READONLY`. -/
def ANNOTATE_READONLY : String := "Read-Only"

/-- Modelled from the spec: `constants.ANNOTATE_REPEAT_COUNT`. -/
def ANNOTATE_REPEAT_COUNT : String := "Repeat Count"

/-- Modelled from the spec: `constants.ANNOTATE_EXTERNAL`. -/
def ANNOTATE_EXTERNAL : String := "External"

/-- Modelled from the spec: `constants.ANNOTATE_CONTACTDATA`. -/
def ANNOTATE_CONTACTDATA : String := "Contact Data"

/-- Modelled from the spec: `constants.ANNOTATE_CHOICE_FILTER`. -/
def ANNOTATE_CHOICE_FILTER : String := "Choice Filter"

/-- Modelled from the spec: the fixed advisory message appended for
select-from-file variants
(`constants.ANNOTATE_SELECT_ONE_FROM_FILE_MESSAGE`; exact wording lives
in the external constants module). -/
def ANNOTATE_SELECT_ONE_FROM_FILE_MESSAGE : String :=
  "Choices defined in external file."

/-- The `annotated_value_styles` table of `get_annotated_label`. -/
def annotated_value_styles : List (String × String) := [
  ("type", "color: black"),
  ("name", "color: orangered"),
  ("itemgroup", "color: blue"),
  ("relevant", "color: green"),
  ("required", "color: red"),
  ("required_type", "color: cornflowerblue"),
  ("constraint", "color: magenta"),
  ("constraint_type", "color: darkolivegreen"),
  ("default", "color: deepskyblue"),
  ("choice_filter", "color: dodgerblue"),
  ("calculation", "color: maroon"),
  ("trigger", "color: darkgreen"),
  ("readonly", "color: chocolate"),
  ("image", "color: darkviolet"),
  ("video", "color: darkviolet"),
  ("audio", "color: darkviolet"),
  ("repeat_count", "color: lime"),
  ("external", "color: indigo"),
  ("contactdata", "color: tomato"),
  ("identifier", "color: tomato"),
  ("custom", "color: black")
]

/-- The list of annotated-field names that the per-field loop still
processes although they are not element attributes (the second operand
of the `continue` guard in `get_annotated_label`). -/
def annotatedNonAttrFields : List String := [
  "itemgroup", "relevant", "required", "required_type", "constraint",
  "constraint_type", "calculation", "readonly", "image", "video", "audio",
  "repeat_count", "external", "contactdata", "identifier", "custom"
]

/-- The group-children fallback of the `repeat_count` annotation branch:
scan the survey's top-level children; inside each `group`-typed child
look for an element named `<repeat_name>_count`, stopping at the first
group that has one. -/
def findRepeatCountInGroups (rcn : String) : List SE → Option SE
  | [] => none
  | sc :: rest =>
      if isStrV (getRaw sc "type") "group" then
        match sc.children.find? (fun c => isStrV (getRaw c "name") rcn) with
        | some m => some m
        | none => findRepeatCountInGroups rcn rest
      else findRepeatCountInGroups rcn rest

/-- One iteration of the per-field loop of
`SurveyElement.get_annotated_label` (the body under `for idx,
annotated_field in enumerate(survey.annotated_fields)`, after its
`continue` guard): derive the `(attr_label, attr_value)` pair for the
field via the dispatch table, style it, and concatenate each non-empty
annotation onto the running label, inserting a newline when `idx == 0`.
The running state is the label so far and the
`is_select_one_from_file` flag. -/
def annotatedFieldStep (ctx : Ctx) (survey e : SE) (lang : Option String)
    (idx : Nat) (f : String) (L : String) (ff : Bool) :
    Except String (String × Bool) := do
  let mut attr_label := titleCase f
  let mut attr_value : Value := .vs ""
  let mut attr_style := ""
  let mut field_annotations : List (String × Value) := []
  let mut custom_annotations : List (String × Value) := []
  let mut ffv := ff
  if hasattrF f then
    attr_value ← getattrE ctx e f
  if f == "type" then
    if isStrV attr_value SELECT_ONE || isStrV attr_value SELECT_ALL_THAT_APPLY then
      let mut av := ""
      if isStrV attr_value SELECT_ONE then
        av := pyReplace SELECT_ONE " " "_"
      else if isStrV attr_value SELECT_ALL_THAT_APPLY then
        av := "select_multiple"
      let ln ← getattrE ctx e "list_name"
      if !(isStrV ln "") then
        av := av ++ " " ++ (← asStr ln)
      else
        let its ← getattrE ctx e "itemset"
        if !(isStrV its "") then
          ffv := true
          av := av ++ "_from_file " ++ (← asStr its)
      attr_value := .vs av
    else if isStrV attr_value "photo" then
      attr_value := .vs "image"
  else if f == "itemgroup" then
    attr_value ← rawDictGet e "bind" "oc:itemgroup"
    if !(isStrV attr_value "") then
      attr_label := ANNOTATE_ITEMGROUP
  else if f == "relevant" then
    attr_value ← get_field_or_lang_dict_value (← rawDictGet e "bind" "relevant") lang
    if !(isStrV attr_value "") then
      attr_label := ANNOTATE_RELEVANT
  else if f == "required" then
    attr_value ← get_field_or_lang_dict_value (← rawDictGet e "bind" "required") lang
  else if f == "required_type" then
    attr_value ← get_field_or_lang_dict_value (← rawDictGet e "bind" "oc:required-type") lang
    if !(isStrV attr_value "") then
      attr_label := ANNOTATE_REQUIRED_TYPE
  else if f == "constraint" then
    attr_value ← get_field_or_lang_dict_value (← rawDictGet e "bind" "constraint") lang
  else if f == "constraint_type" then
    attr_value ← rawDictGet e "bind" "oc:constraint-type"
    if !(isStrV attr_value "") then
      attr_label := ANNOTATE_CONSTRAINT_TYPE
  else if f == "calculation" then
    attr_value ← rawDictGet e "bind" "calculate"
  else if f == "readonly" then
    attr_value ← get_field_or_lang_dict_value (← rawDictGet e "bind" "readonly") lang
    if !(isStrV attr_value "") then
      attr_label := ANNOTATE_READONLY
  else if f == "image" then
    attr_value ← get_field_or_lang_dict_value (← rawDictGet e "media" "image") lang
  else if f == "video" then
    attr_value ← get_field_or_lang_dict_value (← rawDictGet e "media" "video") lang
  else if f == "audio" then
    attr_value ← get_field_or_lang_dict_value (← rawDictGet e "media" "audio") lang
  else if f == "repeat_count" then
    let st ← getattrE ctx e "type"
    if isStrV st "repeat" then
      let nv ← getattrE ctx e "name"
      let repeat_count_name := pyStr nv ++ "_count"
      let top := survey.children.find?
        (fun c => isStrV (getRaw c "name") repeat_count_name)
      let repeat_count_model :=
        match top with
        | some m => some m
        | none => findRepeatCountInGroups repeat_count_name survey.children
      match repeat_count_model with
      | some m =>
          attr_value ← rawDictGet m "bind" "calculate"
          if truthy attr_value then
            attr_label := ANNOTATE_REPEAT_COUNT
      | none => pure ()
  else if f == "external" then
    attr_value ← rawDictGet e "bind" "oc:external"
    if !(isStrV attr_value "") then
      attr_label := ANNOTATE_EXTERNAL
  else if f == "contactdata" then
    attr_value ← rawDictGet e "instance" "oc:contactdata"
    if !(isStrV attr_value "") then
      attr_label := ANNOTATE_CONTACTDATA
  else if f == "choice_filter" then
    if !(isStrV attr_value "") then
      attr_label := ANNOTATE_CHOICE_FILTER
  else if f == "identifier" then
    attr_value ← rawDictGet e "instance" "oc:identifier"
  else if f == "custom" then
    check_custom_annotations e
    custom_annotations ← get_custom_annotations e
    if !custom_annotations.isEmpty then
      for p in custom_annotations do
        attr_value := p.2
        attr_label := pyDrop p.1 ocCustomAnnotationMarker.length
        if attr_label != "" && strContains attr_label "_" then
          attr_label := pyStrip (pyReplace attr_label "_" " ")
        field_annotations := dictSet field_annotations attr_label attr_value
  if (annotated_value_styles.lookup f).isSome then
    attr_style := (annotated_value_styles.lookup f).getD ""
  if custom_annotations.isEmpty then
    field_annotations := dictSet field_annotations attr_label attr_value
  let mut L2 := L
  for p in field_annotations do
    let lbl := p.1
    let value := p.2
    if lbl != "" && !(isStrV value "") then
      let sv0 ← asStr value
      let sv1 := stripNewlines sv0
      let sv := annotated_value_processing sv1 f
      let annotated_value := lbl ++ ": " ++ sv
      let annotated_label_value := " [" ++ annotated_value ++ "]"
      if idx == 0 then
        L2 := L2 ++ "\n"
      if attr_style == "" then
        L2 := L2 ++ annotated_label_value
      else
        L2 := L2 ++ "<span style=\"" ++ attr_style ++ "\">"
          ++ annotated_label_value ++ "</span>"
  return (L2, ffv)

/-- The per-field loop of `get_annotated_label`, with its `continue`
guard: fields that are neither element attributes nor in the recognized
non-attribute list are skipped. -/
def annotatedFieldsLoop (ctx : Ctx) (survey e : SE) (lang : Option String) :
    List String → Nat → String → Bool → Except String (String × Bool)
  | [], _, L, ff => .ok (L, ff)
  | f :: rest, idx, L, ff =>
      if !hasattrF f && !(annotatedNonAttrFields.contains f) then
        annotatedFieldsLoop ctx survey e lang rest (idx + 1) L ff
      else do
        let (L', ff') ← annotatedFieldStep ctx survey e lang idx f L ff
        annotatedFieldsLoop ctx survey e lang rest (idx + 1) L' ff'

/-- `SurveyElement.get_annotated_label(lang)`: outside annotation mode,
validate custom annotations and return the plain (possibly per-language)
label; in annotation mode, escape the label, special-case choice items
(`"<label> [<name>]"` with `choices` escaping), otherwise run the
annotated-field loop, and append the select-from-file advisory when
applicable. `survey` is this element's root and `parent?` its parent
back-reference. -/
def get_annotated_label (ctx : Ctx) (survey : SE) (parent? : Option SE)
    (e : SE) (lang : Option String) : Except String Value := do
  if !ctx.is_annotated_form then
    check_custom_annotations e
    let lv ← getattrE ctx e "label"
    get_field_or_lang_dict_value lv lang
  else
    let parent ← (match parent? with
      | some p => Except.ok p
      | none => Except.error
          "AttributeError: NoneType object has no attribute type" :
      Except String SE)
    let ptype ← getattrE ctx parent "type"
    let is_choices :=
      isStrV ptype SELECT_ONE || isStrV ptype SELECT_ALL_THAT_APPLY
    let mut is_select_one_from_file := false
    let lv ← getattrE ctx e "label"
    let al0 ← get_field_or_lang_dict_value lv lang
    let al0s ← asStr al0
    let mut annotated_label := annotated_value_processing al0s "label"
    if is_choices then
      let lv2 ← getattrE ctx e "label"
      let cl ← get_field_or_lang_dict_value lv2 lang
      let nv ← getattrE ctx e "name"
      annotated_label := pyStr cl ++ " [" ++ pyStr nv ++ "]"
      annotated_label := annotated_value_processing annotated_label "choices"
    else
      let st ← annotatedFieldsLoop ctx survey e lang ctx.annotated_fields 0
        annotated_label false
      annotated_label := st.1
      is_select_one_from_file := st.2
    if is_select_one_from_file then
      annotated_label := annotated_label ++ "<br>"
      annotated_label := annotated_label ++ ANNOTATE_SELECT_ONE_FROM_FILE_MESSAGE
    return .vs annotated_label

/-- A markup fragment as produced by the external `node` builder: tag,
keyword attributes in order, optional text payload and the
`toParseString` flag. -/
structure XNode where
  tag : String
  attrs : List (String × Value)
  text : Option String
  toParse : Bool

/-- `SurveyElement.needs_itext_ref`: multi-language label, or a non-empty
media dict. -/
def needs_itext_ref (ctx : Ctx) (e : SE) : Except String Bool := do
  let lv ← getattrE ctx e "label"
  let mv ← getattrE ctx e "media"
  return (match lv with | .vd _ => true | _ => false)
    || (match mv with | .vd d => !d.isEmpty | _ => false)

/-- `SurveyElement.xml_label`: an itext-reference node when the label is
multi-language or media is present, else the literal (possibly
annotation-composed) label with output values inserted by the external
delegate. -/
def xml_label (ctx : Ctx) (survey : SE) (parent? : Option SE)
    (ancs : List SE) (e : SE) : Except String XNode := do
  if (← needs_itext_ref ctx e) then
    let path ← _translation_path ctx ancs e "label"
    return { tag := "label",
             attrs := [("ref", .vs ("jr:itext(\x27" ++ path ++ "\x27)"))],
             text := none, toParse := false }
  else
    let output_label ← getattrE ctx e "label"
    let al ← get_annotated_label ctx survey parent? e none
    let output_label := if !(valueEq al output_label) then al else output_label
    let ols ← asStr output_label
    let (lab, output_inserted) := ctx.insert_output_values ols
    return { tag := "label", attrs := [], text := some lab,
             toParse := output_inserted }

/-- `SurveyElement.xml_hint`: an itext-reference node when the hint is
multi-language or a guidance hint exists, else the literal hint with
output values inserted. -/
def xml_hint (ctx : Ctx) (ancs : List SE) (e : SE) : Except String XNode := do
  let hv ← getattrE ctx e "hint"
  let gv ← getattrE ctx e "guidance_hint"
  if (match hv with | .vd _ => true | _ => false) || truthy gv then
    let path ← _translation_path ctx ancs e "hint"
    return { tag := "hint",
             attrs := [("ref", .vs ("jr:itext(\x27" ++ path ++ "\x27)"))],
             text := none, toParse := false }
  else
    let hs ← asStr hv
    let (h, output_inserted) := ctx.insert_output_values hs
    return { tag := "hint", attrs := [], text := some h,
             toParse := output_inserted }

/-- `SurveyElement.xml_label_and_hint`: emit a label node when label,
media, or (annotation mode and type `calculate`) demand one, then a hint
node (preceded by a label placeholder if none was emitted) when hint or
guidance hint is present; raise when nothing was produced outside
annotation mode, when a guidance hint stands alone, or when `big-image`
appears without `image`. -/
def xml_label_and_hint (ctx : Ctx) (survey : SE) (parent? : Option SE)
    (ancs : List SE) (e : SE) : Except String (List XNode) := do
  let lab ← getattrE ctx e "label"
  let med ← getattrE ctx e "media"
  let typ ← getattrE ctx e "type"
  let label_appended :=
    truthy lab || truthy med
      || (ctx.is_annotated_form && isStrV typ "calculate")
  let r1 : List XNode ←
    if label_appended then do
      let ln ← xml_label ctx survey parent? ancs e
      pure [ln]
    else pure []
  let hin ← getattrE ctx e "hint"
  let gh ← getattrE ctx e "guidance_hint"
  let result : List XNode ←
    if truthy hin || truthy gh then
      if label_appended then do
        let hn ← xml_hint ctx ancs e
        pure (r1 ++ [hn])
      else do
        let ln ← xml_label ctx survey parent? ancs e
        let hn ← xml_hint ctx ancs e
        pure (r1 ++ [ln, hn])
    else pure r1
  let nv ← getattrE ctx e "name"
  let msg := "The survey element named \x27" ++ pyStr nv
    ++ "\x27 has no label or hint."
  if result.length == 0 && !ctx.is_annotated_form then
    throw msg
  if !(truthy lab || truthy med || truthy hin) && truthy gh then
    throw msg
  if !(← pyIn "image" med) && (← pyIn "big-image" med) then
    throw "To use big-image, you must also specify an image for the survey element named \x7bself.name\x7d."
  return result

/-- A translation record yielded by `get_translations` (its `path`,
`lang` and `text` entries; the element back-references are omitted). -/
structure TransRec where
  path : String
  lang : String
  text : Value

/-- One record per language of a per-language binding-message dict. -/
def perLangRecords (path : String) (d : List (String × Value)) :
    List TransRec :=
  d.map (fun p => { path := path, lang := p.1, text := p.2 })

/-- `len(value)` as used on label/hint values (strings and dicts have a
length; bool/None raise). -/
def lenV : Value → Except String Nat
  | .vs s => .ok s.length
  | .vd d => .ok d.length
  | .vl l => .ok l.length
  | _ => .error "TypeError: object has no len"

/-- The per-language loop over a (possibly rewrapped) display-element
dict in `get_translations`: for labels, substitute the synthesized
annotated label for that language when it differs from the stored
text. -/
def labelDictRecords (ctx : Ctx) (survey : SE) (parent? : Option SE)
    (e : SE) (path : String) (display_element : String) :
    List (String × Value) → Except String (List TransRec)
  | [] => .ok []
  | (lang, text) :: rest => do
      let text' ←
        if display_element == "label" then do
          let al ← get_annotated_label ctx survey parent? e (some lang)
          pure (if !(valueEq al text) then al else text)
        else pure text
      let tail ← labelDictRecords ctx survey parent? e path display_element rest
      return { path := path, lang := lang, text := text' } :: tail

/-- `type(value) is dict`. -/
def isDictV : Value → Bool
  | .vd _ => true
  | _ => false

/-- The first rewrap of the display-element loop of `get_translations`:
a scalar label is wrapped as `{default_language: label}` when the
element needs an itext reference. -/
def displayLabelWrap (ctx : Ctx) (e : SE) (default_language : String)
    (display_element : String) (label_or_hint : Value) :
    Except String Value := do
  if display_element == "label" then do
    let nir ← needs_itext_ref ctx e
    if nir && !(isDictV label_or_hint) && truthy label_or_hint then
      pure (Value.vd [(default_language, label_or_hint)])
    else pure label_or_hint
  else pure label_or_hint

/-- The second rewrap: a non-dict guidance hint of positive length is
always wrapped as a single-language dict. -/
def displayGuidanceWrap (default_language : String)
    (display_element : String) (label_or_hint : Value) :
    Except String Value := do
  if display_element == "guidance_hint" && !(isDictV label_or_hint) then do
    let n ← lenV label_or_hint
    if n > 0 then pure (Value.vd [(default_language, label_or_hint)])
    else pure label_or_hint
  else pure label_or_hint

/-- The third rewrap: a non-dict hint of positive length is wrapped as a
single-language dict when a non-empty guidance hint is present. -/
def displayHintWrap (e : SE) (default_language : String)
    (display_element : String) (label_or_hint : Value) :
    Except String Value := do
  if display_element == "hint" && !(isDictV label_or_hint) then do
    let n ← lenV label_or_hint
    if n > 0 then do
      let gn ← lenV (getRaw e "guidance_hint")
      if gn > 0 then pure (Value.vd [(default_language, label_or_hint)])
      else pure label_or_hint
    else pure label_or_hint
  else pure label_or_hint

/-- The body of the `for display_element in ["label", "hint",
"guidance_hint"]` loop of `get_translations`: read the stored value,
apply the three rewrap rules, then yield one record per language of the
resulting dict (nothing for a remaining non-dict). -/
def displayElementRecords (ctx : Ctx) (survey : SE) (parent? : Option SE)
    (ancs : List SE) (e : SE) (default_language : String)
    (display_element : String) : Except String (List TransRec) := do
  let label_or_hint ← displayLabelWrap ctx e default_language
    display_element (getRaw e display_element)
  let label_or_hint ← displayGuidanceWrap default_language
    display_element label_or_hint
  let label_or_hint ← displayHintWrap e default_language
    display_element label_or_hint
  match label_or_hint with
  | .vd d =>
      let path ← _translation_path ctx ancs e display_element
      labelDictRecords ctx survey parent? e path display_element d
  | _ => return []

/-- The `jr:constraintMsg` / `jr:requiredMsg` block of
`get_translations`: one record per language of a per-language mapping,
or a single `default_language` record for a truthy scalar containing a
bracketed reference token (`re.search` raising on non-string
scalars). -/
def scalarOrDictMsgRecords (ctx : Ctx) (ancs : List SE) (e : SE)
    (bd : List (String × Value)) (key : String)
    (default_language : String) : Except String (List TransRec) :=
  match dictGet? bd key with
  | some (.vd d) => do
      let p ← _translation_path ctx ancs e key
      pure (perLangRecords p d)
  | some v =>
      if truthy v then do
        let s ← asStr v
        if hasBracketedTag s then do
          let p ← _translation_path ctx ancs e key
          pure [{ path := p, lang := default_language, text := v }]
        else pure []
      else pure []
  | none => pure []

/-- The binding-message block of `get_translations` over the stored bind
dict: the `jr:constraintMsg` and `jr:requiredMsg` blocks (per-language
dicts or bracketed-token scalars) followed by the `jr:noAppErrorString`
block, which has the per-language-dict branch only. -/
def bindMsgRecords (ctx : Ctx) (ancs : List SE) (e : SE)
    (bd : List (String × Value)) (default_language : String) :
    Except String (List TransRec) := do
  let r1 ← scalarOrDictMsgRecords ctx ancs e bd "jr:constraintMsg"
    default_language
  let r2 ← scalarOrDictMsgRecords ctx ancs e bd "jr:requiredMsg"
    default_language
  let r3 ← (match dictGet? bd "jr:noAppErrorString" with
    | some (.vd d) => do
        let p ← _translation_path ctx ancs e "jr:noAppErrorString"
        pure (perLangRecords p d)
    | _ => pure ([] : List TransRec))
  return r1 ++ r2 ++ r3

/-- `SurveyElement.get_translations(default_language)`: the binding
message records (emitted only when the stored bind is a truthy dict),
followed by the label / hint / guidance-hint records. -/
def get_translations (ctx : Ctx) (survey : SE) (parent? : Option SE)
    (ancs : List SE) (e : SE) (default_language : String) :
    Except String (List TransRec) := do
  let out ← (match getRaw e "bind" with
    | .vd bd =>
        if !bd.isEmpty then bindMsgRecords ctx ancs e bd default_language
        else pure []
    | _ => pure ([] : List TransRec))
  let l1 ← displayElementRecords ctx survey parent? ancs e default_language "label"
  let l2 ← displayElementRecords ctx survey parent? ancs e default_language "hint"
  let l3 ← displayElementRecords ctx survey parent? ancs e default_language "guidance_hint"
  return out ++ l1 ++ l2 ++ l3

/-- `SurveyElement.get_setvalue_node_for_dynamic_default(in_repeat)`:
none when the default is falsy, not dynamic for the element's type, or
suppressed by annotation mode (`"default"` among the annotated fields);
otherwise a `setvalue` node on this element's xpath whose events are
`odk-instance-first-load`, plus `odk-new-repeat` inside a repeat. -/
def get_setvalue_node_for_dynamic_default (ctx : Ctx) (survey : SE)
    (ancs : List SE) (e : SE) (in_repeat : Bool) :
    Except String (Option XNode) := do
  let dv ← getattrE ctx e "default"
  let tv ← getattrE ctx e "type"
  if !truthy dv || !ctx.default_is_dynamic dv tv
      || (ctx.default_is_dynamic dv tv && ctx.is_annotated_form
          && ctx.annotated_fields.contains "default") then
    return none
  else
    let default_with_xpath_paths := ctx.insert_xpaths dv
    let triggering_events :=
      if in_repeat then "odk-instance-first-load odk-new-repeat"
      else "odk-instance-first-load"
    let xp ← getXpathSE ctx ancs e
    return some { tag := "setvalue",
                  attrs := [("ref", .vs xp),
                            ("value", default_with_xpath_paths),
                            ("event", .vs triggering_events)],
                  text := none, toParse := false }

/-- `SurveyElement.BINDING_CONVERSIONS`. -/
def BINDING_CONVERSIONS : List (String × String) := [
  ("yes", "true()"), ("Yes", "true()"), ("YES", "true()"),
  ("true", "true()"), ("True", "true()"), ("TRUE", "true()"),
  ("no", "false()"), ("No", "false()"), ("NO", "false()"),
  ("false", "false()"), ("False", "false()"), ("FALSE", "false()")
]

/-- `SurveyElement.CONVERTIBLE_BIND_ATTRIBUTES`. -/
def CONVERTIBLE_BIND_ATTRIBUTES : List String :=
  ["readonly", "required", "relevant", "constraint", "calculate"]

/-- The body of the `for k, v in bind_dict.items()` loop of
`xml_bindings`: boolean-literal conversion for the convertible
attributes, itext rewrites for the three message attributes, then the
external xpath-insertion pass (`re.search` on a non-str non-dict message
value raises). -/
def bindItemTransform (ctx : Ctx) (tpCon tpReq tpNoApp : String)
    (k : String) (v : Value) : Except String Value := do
  let v :=
    match v with
    | .vs s =>
        if (BINDING_CONVERSIONS.lookup s).isSome
            && CONVERTIBLE_BIND_ATTRIBUTES.contains k then
          .vs ((BINDING_CONVERSIONS.lookup s).getD s)
        else .vs s
    | v => v
  let v ←
    if k == "jr:constraintMsg" then do
      let c ← (match v with
        | .vd _ => pure true
        | .vs s => pure (hasBracketedTag s)
        | _ => throw "TypeError: expected string or bytes-like object" :
        Except String Bool)
      pure (if c then Value.vs ("jr:itext(\x27" ++ tpCon ++ "\x27)") else v)
    else pure v
  let v ←
    if k == "jr:requiredMsg" then do
      let c ← (match v with
        | .vd _ => pure true
        | .vs s => pure (hasBracketedTag s)
        | _ => throw "TypeError: expected string or bytes-like object" :
        Except String Bool)
      pure (if c then Value.vs ("jr:itext(\x27" ++ tpReq ++ "\x27)") else v)
    else pure v
  let v :=
    if k == "jr:noAppErrorString"
        && (match v with | .vd _ => true | _ => false) then
      Value.vs ("jr:itext(\x27" ++ tpNoApp ++ "\x27)")
    else v
  return ctx.insert_xpaths v

/-- The shared tail of `xml_bindings` (reached when no annotation rule
suppressed the binding): run the item-conversion loop over the working
copy and build the `bind` node on this element's xpath. -/
def mkBindNode (ctx : Ctx) (ancs : List SE) (e : SE)
    (bd : List (String × Value)) : Except String (List XNode) := do
  let tpCon ← _translation_path ctx ancs e "jr:constraintMsg"
  let tpReq ← _translation_path ctx ancs e "jr:requiredMsg"
  let tpNoApp ← _translation_path ctx ancs e "jr:noAppErrorString"
  let items ← bd.mapM (fun p => do
    let v ← bindItemTransform ctx tpCon tpReq tpNoApp p.1 p.2
    pure (p.1, v))
  let xp ← getXpathSE ctx ancs e
  return [{ tag := "bind", attrs := ("nodeset", Value.vs xp) :: items,
            text := none, toParse := false }]

/-- `SurveyElement.xml_bindings`, with the element's own state threaded
through explicitly: every statement of the source operates on the copy
`bind_dict`, never on `self`, so each exit returns the element
unchanged alongside the fragment result. -/
def xml_bindings_st (ctx : Ctx) (survey : SE) (ancs : List SE) (e : SE) :
    Except String (Option (List XNode) × SE) :=
  match getattrE ctx e "bind" with
  | .error m => .error m
  | .ok bv =>
    match bv with
    | .vd bd0 =>
        if truthy (getRaw e "flat") then .ok (none, e)
        else if bd0.isEmpty then .ok (none, e)
        else
          match getattrE ctx e "trigger" with
          | .error m => .error m
          | .ok tv =>
            let bd1 :=
              if truthy tv && dictHas bd0 "calculate" then
                dictRemove bd0 "calculate"
              else bd0
            if ctx.is_annotated_form then
              if ctx.annotated_fields.contains "relevant"
                  && dictHas bd0 "relevant" then
                .ok (none, e)
              else
                let bd2 :=
                  if ctx.annotated_fields.contains "calculation"
                      && dictHas bd0 "calculate" then
                    dictSet bd1 "calculate" (.vs "string(\x27\x27)")
                  else bd1
                match mkBindNode ctx ancs e bd2 with
                | .error m => .error m
                | .ok ns => .ok (some ns, e)
            else
              match mkBindNode ctx ancs e bd1 with
              | .error m => .error m
              | .ok ns => .ok (some ns, e)
    | _ => .error "AttributeError: object has no attribute copy"

/-- `SurveyElement.xml_bindings` (the fragment view of the stateful
translation). -/
def xml_bindings (ctx : Ctx) (survey : SE) (ancs : List SE) (e : SE) :
    Except String (Option (List XNode)) :=
  (xml_bindings_st ctx survey ancs e).map (fun p => p.1)

/-- The repeat-ancestor count of `xml_descendent_bindings`:
`len([ancestor for ancestor in e.get_lineage() if ancestor.type ==
"repeat"])`. -/
def countLineageRepeats (ctx : Ctx) (ancs : List SE) (e : SE) :
    Except String Nat := do
  let types ← (lineageSE ancs e).mapM (fun a => getattrE ctx a "type")
  return (types.filter (fun t => isStrV t REPEAT)).length

/-- The per-descendant step of `xml_descendent_bindings`: the element's
own binding fragments, then — when no repeat appears in its lineage —
its dynamic-default `setvalue` fragment. -/
def descBindStep (ctx : Ctx) (survey : SE) (ancs : List SE) (e : SE) :
    Except String (List XNode) := do
  let xb ← xml_bindings ctx survey ancs e
  let base := match xb with | some l => l | none => []
  let n ← countLineageRepeats ctx ancs e
  if n == 0 then
    match (← get_setvalue_node_for_dynamic_default ctx survey ancs e false) with
    | some dd => return base ++ [dd]
    | none => return base
  else return base

mutual

/-- `SurveyElement.xml_descendent_bindings`: concatenate, in preorder
over `iter_descendants` (self first, then each child's subtree), each
descendant's binding fragments and dynamic-default fragments. -/
def xml_descendent_bindings (ctx : Ctx) (survey : SE) (ancs : List SE) :
    SE → Except String (List XNode)
  | .node fs cs => do
      let mine ← descBindStep ctx survey ancs (.node fs cs)
      let kids ← xml_descendent_bindings_children ctx survey
        (ancs ++ [SE.node fs cs]) cs
      return mine ++ kids

/-- The children traversal of `xml_descendent_bindings`. -/
def xml_descendent_bindings_children (ctx : Ctx) (survey : SE)
    (ancs : List SE) : List SE → Except String (List XNode)
  | [] => .ok []
  | c :: rest => do
      let here ← xml_descendent_bindings ctx survey ancs c
      let there ← xml_descendent_bindings_children ctx survey ancs rest
      return here ++ there

end

/-- `SurveyElement.xml_action`, with the element's state threaded
explicitly: the action mapping is copied, its `name` entry removed from
the copy only, and a node named by it built on this element's xpath. -/
def xml_action_st (ctx : Ctx) (ancs : List SE) (e : SE) :
    Except String (Option XNode × SE) :=
  match getattrE ctx e "action" with
  | .error m => .error m
  | .ok av =>
    if truthy av then
      match av with
      | .vd ad =>
          if ad.isEmpty then .ok (none, e)
          else
            match dictGet? ad "name" with
            | none => .error "KeyError: name"
            | some nv =>
              match asStr nv with
              | .error m => .error m
              | .ok nm =>
                match getXpathSE ctx ancs e with
                | .error m => .error m
                | .ok xp =>
                    .ok (some { tag := nm,
                                attrs := ("ref", Value.vs xp) ::
                                  dictRemove ad "name",
                                text := none, toParse := false }, e)
      | _ => .error "AttributeError: object has no attribute copy"
    else .ok (none, e)

/-- `SurveyElement.xml_action` (the fragment view of the stateful
translation). -/
def xml_action (ctx : Ctx) (ancs : List SE) (e : SE) :
    Except String (Option XNode) :=
  (xml_action_st ctx ancs e).map (fun p => p.1)

/-- `SurveyElement.validate`: the element's name must satisfy the
external markup-identifier predicate `is_valid_xml_tag` (passed in as
`valid`); otherwise a `PyXFormError` naming the offending name. -/
def validateSE (valid : String → Bool) (ctx : Ctx) (e : SE) :
    Except String Unit := do
  let nv ← getattrE ctx e "name"
  let n ← asStr nv
  if valid n then return ()
  else throw ("The name \x27" ++ n ++ "\x27 contains an invalid character.")

mutual

/-- `SurveyElement._delete_keys_from_dict(dictionary, keys)`: delete the
listed keys at this level, then recurse into every remaining value that
is itself a dict. -/
def deleteKeysFromDict (keys : List String) :
    List (String × Value) → List (String × Value)
  | [] => []
  | (k, v) :: rest =>
      if keys.contains k then deleteKeysFromDict keys rest
      else (k, deleteKeysFromValue keys v) :: deleteKeysFromDict keys rest

/-- The recursion of `_delete_keys_from_dict` into a stored value: only
dict values are descended into. -/
def deleteKeysFromValue (keys : List String) : Value → Value
  | .vd dd => Value.vd (deleteKeysFromDict keys dd)
  | v => v

end

mutual

/-- `SurveyElement.to_json_dict`: validate, copy the underlying dict,
strip the internal keys (`parent`, `question_type_dictionary`,
`_created`) recursively, replace `children` with the recursively
converted children (popped and re-appended, so the key moves to the
end), then delete every top-level key whose value is falsy. -/
def to_json_dict (valid : String → Bool) (ctx : Ctx) :
    SE → Except String Value
  | .node fs cs => do
      validateSE valid ctx (.node fs cs)
      let result := fs
      let result := deleteKeysFromDict
        ["parent", "question_type_dictionary", "_created"] result
      let kids ← to_json_dict_children valid ctx cs
      let result := (dictRemove result "children") ++ [("children", Value.vl kids)]
      return Value.vd (result.filter (fun p => truthy p.2))

/-- The children conversion loop of `to_json_dict`. -/
def to_json_dict_children (valid : String → Bool) (ctx : Ctx) :
    List SE → Except String (List Value)
  | [] => .ok []
  | c :: rest => do
      let v ← to_json_dict valid ctx c
      let more ← to_json_dict_children valid ctx rest
      return v :: more

end

mutual

/-- The claim's property for `to_json_dict` snapshots: no key bound to a
falsy value at any nesting level of the mapping (descending through
nested dicts and lists). -/
def noFalsyDeep : Value → Bool
  | .vd d => noFalsyDeepPairs d
  | .vl l => noFalsyDeepList l
  | _ => true

/-- `noFalsyDeep` over dict entries. -/
def noFalsyDeepPairs : List (String × Value) → Bool
  | [] => true
  | (_, v) :: rest => truthy v && noFalsyDeep v && noFalsyDeepPairs rest

/-- `noFalsyDeep` over list elements. -/
def noFalsyDeepList : List Value → Bool
  | [] => true
  | v :: rest => noFalsyDeep v && noFalsyDeepList rest

end

/-- `Except.bind` succeeds exactly through a successful first stage. -/
theorem exceptBind_ok {α β : Type} {x : Except String α}
    {f : α → Except String β} {b : β} (h : x >>= f = Except.ok b) :
    ∃ a, x = Except.ok a ∧ f a = Except.ok b := by
  cases x with
  | error m => simp [Bind.bind, Except.bind] at h
  | ok a => exact ⟨a, rfl, by simpa [Bind.bind, Except.bind] using h⟩

/-- The accumulator walk of `get_lineage` prepends onto its accumulator
exactly the root-to-self chain. -/
theorem lineageWalk_eq (e : PElem) (acc : List PElem) :
    lineageWalk e acc = rootToSelfChain e ++ acc := by
  induction e generalizing acc with
  | root n f => rfl
  | child n f p ih =>
      show lineageWalk p (PElem.child n f p :: acc) = _
      rw [ih, rootToSelfChain, List.append_assoc]
      rfl

/-- `String.intercalate.go` is a left fold that appends the separator
before each further element. -/
theorem intercalate_go_foldl (sep : String) (l : List String) (acc : String) :
    String.intercalate.go acc sep l
      = l.foldl (fun a x => a ++ sep ++ x) acc := by
  induction l generalizing acc with
  | nil => rfl
  | cons a as ih => rw [String.intercalate.go, ih, List.foldl]

/-- The context of the C1 counterexample: a question type whose default
table entry for `control` is the non-empty mapping
`{"tag": "input"}`. -/
def c1ctx : Ctx := {
  question_type_dict := fun t =>
    if t == "q1" then [("control", .vd [("tag", .vs "input")])] else [],
  is_annotated_form := false,
  annotated_fields := [],
  insert_xpaths := fun v => v,
  insert_output_values := fun s => (s, false),
  default_is_dynamic := fun _ _ => false }

/-- The element of the C1 counterexample: its stored `control` value is
the non-empty non-mapping scalar `"custom"`. -/
def c1elem : SE := .node [("type", .vs "q1"), ("control", .vs "custom")] []

/-- C1 (counterexample): with the type default for `control` being the
non-empty mapping `{"tag": "input"}` and the instance value the
non-empty scalar `"custom"`, attribute resolution does not return the
scalar — `_overlay` attempts `dict.update("custom")`, which raises a
ValueError. -/
theorem c1_overlay_counterexample :
    getattrE c1ctx c1elem "control" =
      .error "ValueError: dictionary update sequence element has length 1; 2 is required"
    ∧ getattrE c1ctx c1elem "control" ≠ Except.ok (Value.vs "custom") := by
  refine ⟨rfl, ?_⟩
  intro h
  rw [show getattrE c1ctx c1elem "control" =
    Except.error "ValueError: dictionary update sequence element has length 1; 2 is required"
    from rfl] at h
  exact Except.noConfusion h

/-- C1 (amended): for every element whose type-default table entry for a
field is a non-empty mapping and whose instance value for that field is
a non-empty non-mapping scalar, attribute resolution (`__getattr__` via
`_overlay`) raises a ValueError from the attempted dict-update rather
than returning the scalar; the instance scalar fully replaces the
default only when the type default is not a mapping. -/
theorem c1_overlay_amended (ctx : Ctx) (e : SE) (key : String)
    (d : List (String × Value)) (s : String)
    (hkey : hasattrF key = true)
    (hunder : dictGet? (_default ctx e) key = some (.vd d))
    (hd : d ≠ [])
    (hover : getRaw e key = .vs s)
    (hs : s ≠ "") :
    getattrE ctx e key =
      .error "ValueError: dictionary update sequence element has length 1; 2 is required" := by
  have hde : d.isEmpty = false := by
    cases d with
    | nil => exact absurd rfl hd
    | cons a l => rfl
  have hse : s.isEmpty = false := by
    cases h2 : s.isEmpty with
    | false => rfl
    | true => exact absurd ((String.isEmpty_iff s).mp h2) hs
  unfold getattrE
  rw [hkey, hunder, hover]
  simp [truthy, _overlay, hde, hse]

/-- Witness for C1 (amended) at the concrete counterexample input. -/
theorem c1_overlay_amended_witness :
    getattrE c1ctx c1elem "control" =
      .error "ValueError: dictionary update sequence element has length 1; 2 is required" :=
  c1_overlay_amended c1ctx c1elem "control" [("tag", .vs "input")] "custom"
    rfl rfl (by simp) rfl (by simp)

/-- C3 (counterexample): value escaping for field kind `default` on
`"a_b>c<d*e"` does not produce the spec's `"a\_b gt c lt d\*e"` — the
`>` and `<` substitutions are raw text replacements and insert no
spaces. -/
theorem c3_escape_counterexample :
    annotated_value_processing "a_b>c<d*e" "default" ≠ "a\\_b gt c lt d\\*e" := by
  decide

/-- C3 (amended): value escaping for field kind `default` applied to
`"a_b>c<d*e"` yields `"a\_bgtcltd\*e"` — underscore escaped with a
backslash, `>` replaced by `gt` and `<` by `lt` with no surrounding
spaces, `*` escaped with a backslash. -/
theorem c3_escape_amended :
    annotated_value_processing "a_b>c<d*e" "default" = "a\\_bgtcltd\\*e" := rfl

/-- C6: `get_lineage` is the root-to-self parent chain with every node
except the first whose `flat` attribute is true removed (the root kept
even if flat), and `get_xpath` joins the lineage names with `/` behind a
leading `/` (the empty leading segment). -/
theorem c6_lineage_xpath (e : PElem) :
    get_lineage e = (match rootToSelfChain e with
      | [] => []
      | first :: rest => first :: rest.filter (fun item => !item.flat)) ∧
    get_xpath e =
      ((get_lineage e).map PElem.name).foldl (fun acc n => acc ++ "/" ++ n) "" := by
  constructor
  · unfold get_lineage
    rw [lineageWalk_eq, List.append_nil]
  · unfold get_xpath
    rw [show String.intercalate "/" ("" :: (get_lineage e).map PElem.name)
      = String.intercalate.go "" "/" ((get_lineage e).map PElem.name) from rfl]
    rw [intercalate_go_foldl]

/-- The annotated-form context of the C2 scenario:
`annotated_fields = ["type", "name"]`. -/
def c2ctx : Ctx := {
  question_type_dict := fun _ => [],
  is_annotated_form := true,
  annotated_fields := ["type", "name"],
  insert_xpaths := fun v => v,
  insert_output_values := fun s => (s, false),
  default_is_dynamic := fun _ _ => false }

/-- The survey root of the C2 scenario (also the element's non-selector
parent). -/
def c2survey : SE := .node [("type", .vs "survey"), ("name", .vs "data")] []

/-- The element of the C2 scenario: `type=string, name=name,
label=Name`. -/
def c2elem : SE :=
  .node [("type", .vs "string"), ("name", .vs "name"), ("label", .vs "Name")] []

/-- The label the C2 scenario composes. -/
def c2label : String :=
  "Name\n<span style=\"color: black\"> [Type: string]</span><span style=\"color: orangered\"> [Name: name]</span>"

/-- C2: for `type=string, name=name, label=Name` with
`annotated_fields=["type","name"]` and a non-selector parent,
`get_annotated_label` returns a label containing `"[Name: name]"` and
`"[Type: string]"` with exactly one newline, inserted immediately after
the user-authored label (only the field at index 0 adds it). -/
theorem c2_annotated_label :
    get_annotated_label c2ctx c2survey (some c2survey) c2elem none =
      .ok (.vs c2label)
    ∧ strContains c2label "[Name: name]" = true
    ∧ strContains c2label "[Type: string]" = true
    ∧ countChar c2label '\n' = 1
    ∧ pyStartsWith c2label "Name\n" = true := by
  exact ⟨rfl, by decide, by decide, by decide, by decide⟩

/-- The context of the C7 counterexample (not annotated; no type
defaults). -/
def c7ctx : Ctx := {
  question_type_dict := fun _ => [],
  is_annotated_form := false,
  annotated_fields := [],
  insert_xpaths := fun v => v,
  insert_output_values := fun s => (s, false),
  default_is_dynamic := fun _ _ => false }

/-- The survey root above the C7 element. -/
def c7survey : SE := .node [("name", .vs "data")] []

/-- A C7 element whose bind table holds `jr:noAppErrorString` as a
scalar string containing the bracketed reference token `${x}`. -/
def c7elem (s : String) : SE :=
  .node [("name", .vs "q"), ("bind", .vd [("jr:noAppErrorString", .vs s)])] []

/-- C7 (counterexample): with `jr:noAppErrorString` bound to the scalar
`"msg ${x}"` (which contains a bracketed token), `get_translations`
yields no record at all — unlike `constraintMsg` / `requiredMsg`, the
scalar-with-token branch does not exist for `noAppErrorString`. -/
theorem c7_noapp_counterexample :
    hasBracketedTag "msg $\x7bx\x7d" = true
    ∧ get_translations c7ctx c7survey none [c7survey] (c7elem "msg $\x7bx\x7d")
        "default" = .ok [] := ⟨rfl, rfl⟩

/-- String concatenation is left-cancellative. -/
theorem strAppend_cancel (a b c : String) (h : a ++ b = a ++ c) : b = c := by
  apply String.ext
  have := congrArg String.data h
  simp only [String.data_append] at this
  exact List.append_cancel_left this

/-- `_translation_path` evaluates to the element's xpath followed by `:`
and the display element. -/
theorem tpath_eval {ctx : Ctx} {ancs : List SE} {e : SE} {xp : String}
    (hxp : getXpathSE ctx ancs e = .ok xp) (de : String) :
    _translation_path ctx ancs e de = .ok (xp ++ ":" ++ de) := by
  simp [_translation_path, hxp, Bind.bind, Except.bind, Pure.pure, Except.pure]

/-- Every per-language record carries the path it was built from. -/
theorem perLangRecords_path {p : String} {d : List (String × Value)}
    {r : TransRec} (hr : r ∈ perLangRecords p d) : r.path = p := by
  simp only [perLangRecords, List.mem_map] at hr
  obtain ⟨a, _, rfl⟩ := hr
  rfl

/-- Every record of the per-language label/hint loop carries the path it
was given. -/
theorem labelDictRecords_path (ctx : Ctx) (survey : SE) (parent? : Option SE)
    (e : SE) (p de : String) :
    ∀ (d : List (String × Value)) (l : List TransRec),
      labelDictRecords ctx survey parent? e p de d = .ok l →
      ∀ r ∈ l, r.path = p := by
  intro d
  induction d with
  | nil =>
      intro l h r hr
      simp only [labelDictRecords, Pure.pure] at h
      cases h
      cases hr
  | cons a rest ih =>
      intro l h r hr
      rw [labelDictRecords] at h
      split at h
      · obtain ⟨al, hal, h⟩ := exceptBind_ok h
        obtain ⟨y, hy, h⟩ := exceptBind_ok h
        obtain ⟨tl, htl, h⟩ := exceptBind_ok h
        simp only [Pure.pure, Except.pure, Except.ok.injEq] at h
        subst h
        rcases List.mem_cons.mp hr with h1 | h1
        · subst h1; rfl
        · exact ih tl htl r h1
      · obtain ⟨y, hy, h⟩ := exceptBind_ok h
        obtain ⟨tl, htl, h⟩ := exceptBind_ok h
        simp only [Pure.pure, Except.pure, Except.ok.injEq] at h
        subst h
        rcases List.mem_cons.mp hr with h1 | h1
        · subst h1; rfl
        · exact ih tl htl r h1

/-- Every record of a `constraintMsg` / `requiredMsg` block is on that
message key's translation path. -/
theorem scalarOrDictMsgRecords_path (ctx : Ctx) (ancs : List SE) (e : SE)
    (bd : List (String × Value)) (key dl : String) (xp : String)
    (l : List TransRec)
    (hxp : getXpathSE ctx ancs e = .ok xp)
    (h : scalarOrDictMsgRecords ctx ancs e bd key dl = .ok l) :
    ∀ r ∈ l, r.path = xp ++ ":" ++ key := by
  intro r hr
  unfold scalarOrDictMsgRecords at h
  split at h
  · rw [tpath_eval hxp] at h
    obtain ⟨p, hp, h⟩ := exceptBind_ok h
    simp only [Except.ok.injEq] at hp
    subst hp
    simp only [Pure.pure, Except.pure, Except.ok.injEq] at h
    subst h
    exact perLangRecords_path hr
  · split at h
    · obtain ⟨s, hs, h⟩ := exceptBind_ok h
      split at h
      · rw [tpath_eval hxp] at h
        obtain ⟨p, hp, h⟩ := exceptBind_ok h
        simp only [Except.ok.injEq] at hp
        subst hp
        simp only [Pure.pure, Except.pure, Except.ok.injEq] at h
        subst h
        rcases List.mem_singleton.mp hr with rfl
        rfl
      · simp only [Pure.pure, Except.pure, Except.ok.injEq] at h
        subst h
        cases hr
    · simp only [Pure.pure, Except.pure, Except.ok.injEq] at h
      subst h
      cases hr
  · simp only [Pure.pure, Except.pure, Except.ok.injEq] at h
    subst h
    cases hr

/-- When the stored `jr:noAppErrorString` is a scalar string, every
record of the binding-message block lies on the `constraintMsg` or
`requiredMsg` path — none on the `noAppErrorString` path. -/
theorem bindMsgRecords_noapp (ctx : Ctx) (ancs : List SE) (e : SE)
    (bd : List (String × Value)) (dl s xp : String) (l : List TransRec)
    (hxp : getXpathSE ctx ancs e = .ok xp)
    (hnoapp : dictGet? bd "jr:noAppErrorString" = some (.vs s))
    (h : bindMsgRecords ctx ancs e bd dl = .ok l) :
    ∀ r ∈ l, r.path = xp ++ ":" ++ "jr:constraintMsg"
      ∨ r.path = xp ++ ":" ++ "jr:requiredMsg" := by
  intro r hr
  unfold bindMsgRecords at h
  obtain ⟨r1, h1, h⟩ := exceptBind_ok h
  obtain ⟨r2, h2, h⟩ := exceptBind_ok h
  obtain ⟨r3, h3, h⟩ := exceptBind_ok h
  rw [hnoapp] at h3
  simp only [Pure.pure, Except.pure, Except.ok.injEq] at h3
  subst h3
  simp only [Pure.pure, Except.pure, Except.ok.injEq] at h
  subst h
  rw [List.append_nil] at hr
  rcases List.mem_append.mp hr with h4 | h4
  · exact Or.inl (scalarOrDictMsgRecords_path ctx ancs e bd _ dl xp r1 hxp h1 r h4)
  · exact Or.inr (scalarOrDictMsgRecords_path ctx ancs e bd _ dl xp r2 hxp h2 r h4)

/-- Every record of a display-element block is on that display element's
translation path. -/
theorem displayElementRecords_path (ctx : Ctx) (survey : SE)
    (parent? : Option SE) (ancs : List SE) (e : SE) (dl de xp : String)
    (l : List TransRec)
    (hxp : getXpathSE ctx ancs e = .ok xp)
    (h : displayElementRecords ctx survey parent? ancs e dl de = .ok l) :
    ∀ r ∈ l, r.path = xp ++ ":" ++ de := by
  intro r hr
  unfold displayElementRecords at h
  obtain ⟨a1, h1, h⟩ := exceptBind_ok h
  obtain ⟨a2, h2, h⟩ := exceptBind_ok h
  obtain ⟨a3, h3, h⟩ := exceptBind_ok h
  cases a3 with
  | vd d =>
      rw [tpath_eval hxp] at h
      obtain ⟨p, hp, h⟩ := exceptBind_ok h
      simp only [Except.ok.injEq] at hp
      subst hp
      exact labelDictRecords_path ctx survey parent? e _ de d l h r hr
  | vs s =>
      simp only [Pure.pure, Except.pure, Except.ok.injEq] at h
      subst h; cases hr
  | vl ll =>
      simp only [Pure.pure, Except.pure, Except.ok.injEq] at h
      subst h; cases hr
  | vb b =>
      simp only [Pure.pure, Except.pure, Except.ok.injEq] at h
      subst h; cases hr
  | vnone =>
      simp only [Pure.pure, Except.pure, Except.ok.injEq] at h
      subst h; cases hr

/-- C7 (amended): for every element whose bind table holds
`jr:noAppErrorString` as a scalar string — even one containing a
bracketed reference token — `get_translations` yields no translation
record for that message: no record of the run lies on the
`noAppErrorString` translation path. Only a per-language mapping yields
`noAppErrorString` records, the scalar branch existing solely for
`constraintMsg` and `requiredMsg`. -/
theorem c7_noapp_amended (ctx : Ctx) (survey : SE) (parent? : Option SE)
    (ancs : List SE) (e : SE) (dl : String) (bd : List (String × Value))
    (s xp : String) (recs : List TransRec)
    (hbind : getRaw e "bind" = .vd bd)
    (hnoapp : dictGet? bd "jr:noAppErrorString" = some (.vs s))
    (htag : hasBracketedTag s = true)
    (hxp : getXpathSE ctx ancs e = .ok xp)
    (hrun : get_translations ctx survey parent? ancs e dl = .ok recs) :
    ∀ r ∈ recs, r.path ≠ xp ++ ":" ++ "jr:noAppErrorString" := by
  have hbd : bd.isEmpty = false := by
    cases bd with
    | nil => simp [dictGet?] at hnoapp
    | cons a l => rfl
  intro r hr
  unfold get_translations at hrun
  rw [hbind] at hrun
  obtain ⟨b0, hb0, hrun⟩ := exceptBind_ok hrun
  obtain ⟨l1, hl1, hrun⟩ := exceptBind_ok hrun
  obtain ⟨l2, hl2, hrun⟩ := exceptBind_ok hrun
  obtain ⟨l3, hl3, hrun⟩ := exceptBind_ok hrun
  simp only [Pure.pure, Except.pure, Except.ok.injEq] at hrun
  subst hrun
  have hb0' : (if (!bd.isEmpty) = true then bindMsgRecords ctx ancs e bd dl
      else pure []) = Except.ok b0 := hb0
  rw [hbd] at hb0'
  simp only [Bool.not_false, if_true] at hb0'
  have hne : ∀ a b : String, a ≠ b → xp ++ ":" ++ a ≠ xp ++ ":" ++ b := by
    intro a b hab hcontra
    exact hab (strAppend_cancel (xp ++ ":") a b hcontra)
  rcases List.mem_append.mp hr with h4 | h4
  · rcases List.mem_append.mp h4 with h5 | h5
    · rcases List.mem_append.mp h5 with h6 | h6
      · rcases bindMsgRecords_noapp ctx ancs e bd dl s xp b0 hxp hnoapp hb0' r h6 with h7 | h7
        · rw [h7]; exact hne _ _ (by decide)
        · rw [h7]; exact hne _ _ (by decide)
      · rw [displayElementRecords_path ctx survey parent? ancs e dl "label" xp l1 hxp hl1 r h6]
        exact hne _ _ (by decide)
    · rw [displayElementRecords_path ctx survey parent? ancs e dl "hint" xp l2 hxp hl2 r h5]
      exact hne _ _ (by decide)
  · rw [displayElementRecords_path ctx survey parent? ancs e dl "guidance_hint" xp l3 hxp hl3 r h4]
    exact hne _ _ (by decide)

/-- A C7 witness element: a `constraintMsg` per-language dict alongside
the scalar-with-token `noAppErrorString`. -/
def c7elem2 : SE :=
  .node [("name", .vs "q"),
         ("bind", .vd [("jr:constraintMsg", .vd [("en", .vs "m")]),
                       ("jr:noAppErrorString", .vs "msg $\x7bx\x7d")])] []

/-- The single record `c7elem2`'s translations contain. -/
def c7rec : TransRec :=
  { path := "/data/q:jr:constraintMsg", lang := "en", text := .vs "m" }

/-- Witness for C7 (amended) at a concrete element: the run yields only
the `constraintMsg` record, and it is not on the `noAppErrorString`
path. -/
theorem c7_noapp_amended_witness :
    hasBracketedTag "msg $\x7bx\x7d" = true
    ∧ ∀ r ∈ [c7rec],
        r.path ≠ "/data/q" ++ ":" ++ "jr:noAppErrorString" :=
  ⟨by decide,
   c7_noapp_amended c7ctx c7survey none [c7survey] c7elem2 "default"
     [("jr:constraintMsg", .vd [("en", .vs "m")]),
      ("jr:noAppErrorString", .vs "msg $\x7bx\x7d")]
     "msg $\x7bx\x7d" "/data/q" [c7rec]
     rfl rfl (by decide) rfl rfl⟩

/-- The context of the C9 counterexample. -/
def c9ctx : Ctx := {
  question_type_dict := fun _ => [],
  is_annotated_form := false,
  annotated_fields := [],
  insert_xpaths := fun v => v,
  insert_output_values := fun s => (s, false),
  default_is_dynamic := fun _ _ => false }

/-- The element of the C9 counterexample: a valid name and a bind table
whose `relevant` entry is the empty string. -/
def c9elem : SE :=
  .node [("name", .vs "q"),
         ("bind", .vd [("relevant", .vs ""), ("required", .vs "true()")])] []

/-- The plain-tree snapshot `to_json_dict` produces for `c9elem`: the
top-level falsy keys (including the empty children list) are pruned, but
the empty-string `relevant` entry survives inside the nested `bind`
mapping. -/
def c9snapshot : Value :=
  .vd [("name", .vs "q"),
       ("bind", .vd [("relevant", .vs ""), ("required", .vs "true()")])]

/-- C9 (counterexample): the snapshot of a validated element can carry a
falsy value (an empty string) inside the nested `bind` mapping — the
falsy-prune loop of `to_json_dict` runs over the top level only. -/
theorem c9_json_counterexample :
    to_json_dict (fun _ => true) c9ctx c9elem = .ok c9snapshot
    ∧ noFalsyDeep c9snapshot = false := ⟨rfl, rfl⟩

/-- C9 (amended): for every validated element, the top level of the
`to_json_dict` snapshot contains no key with a falsy value (each
converted child is pruned the same way by its own conversion), but
values nested inside auxiliary mappings such as `bind` are not
pruned. -/
theorem c9_json_amended (valid : String → Bool) (ctx : Ctx) (e : SE)
    (res : Value) (h : to_json_dict valid ctx e = .ok res) :
    ∃ l, res = Value.vd l ∧ ∀ p ∈ l, truthy p.2 = true := by
  cases e with
  | node fs cs =>
      rw [to_json_dict] at h
      obtain ⟨u, hu, h⟩ := exceptBind_ok h
      obtain ⟨kids, hkids, h⟩ := exceptBind_ok h
      simp only [Pure.pure, Except.pure, Except.ok.injEq] at h
      refine ⟨_, h.symm, ?_⟩
      intro p hp
      exact (List.mem_filter.mp hp).2

/-- Witness for C9 (amended) at the concrete counterexample input. -/
theorem c9_json_amended_witness :
    ∃ l, c9snapshot = Value.vd l ∧ ∀ p ∈ l, truthy p.2 = true :=
  c9_json_amended (fun _ => true) c9ctx c9elem c9snapshot rfl

/-- C4: for every non-flat element of an annotated form whose survey has
`"relevant"` among the annotated fields and whose bind table (as
resolved by `__getattr__`) contains a `relevant` entry, `xml_bindings`
returns none — the entire binding is suppressed. -/
theorem c4_binding_suppression (ctx : Ctx) (survey : SE) (ancs : List SE)
    (e : SE) (bd : List (String × Value)) (tv : Value)
    (hflat : truthy (getRaw e "flat") = false)
    (hbind : getattrE ctx e "bind" = .ok (.vd bd))
    (hrel : dictHas bd "relevant" = true)
    (htrig : getattrE ctx e "trigger" = .ok tv)
    (hann : ctx.is_annotated_form = true)
    (hfields : ctx.annotated_fields.contains "relevant" = true) :
    xml_bindings ctx survey ancs e = .ok none := by
  have hbd : bd.isEmpty = false := by
    cases bd with
    | nil => simp [dictHas, dictGet?] at hrel
    | cons a l => rfl
  have hmem : "relevant" ∈ ctx.annotated_fields := by simpa using hfields
  unfold xml_bindings xml_bindings_st
  rw [hbind]
  simp [hflat, hbd, htrig, hann, hmem, hrel, Except.map]

/-- The annotated context of the C4 witness. -/
def c4ctx : Ctx := {
  question_type_dict := fun _ => [],
  is_annotated_form := true,
  annotated_fields := ["relevant"],
  insert_xpaths := fun v => v,
  insert_output_values := fun s => (s, false),
  default_is_dynamic := fun _ _ => false }

/-- The element of the C4 witness: non-flat, with a `relevant` bind
entry. -/
def c4elem : SE :=
  .node [("name", .vs "q"),
         ("bind", .vd [("relevant", .vs "$\x7bx\x7d = 1")])] []

/-- Witness for C4 at a concrete annotated element. -/
theorem c4_binding_suppression_witness :
    xml_bindings c4ctx (SE.node [("name", .vs "data")] [c4elem])
      [SE.node [("name", .vs "data")] [c4elem]] c4elem = .ok none :=
  c4_binding_suppression c4ctx (SE.node [("name", .vs "data")] [c4elem])
    [SE.node [("name", .vs "data")] [c4elem]] c4elem
    [("relevant", .vs "$\x7bx\x7d = 1")] (.vs "")
    rfl rfl rfl rfl rfl rfl

/-- C5: an element with no label, no media and no hint makes
`xml_label_and_hint` raise an error whose message names the element when
the form is not in annotation mode; with the same empty fields (and no
guidance hint standing alone) the annotated form never reaches either
raise site for that error — its result is exactly the label-fragment
part: empty for a non-`calculate` element, and the lone `xml_label`
fragment (whatever that sub-computation produces) for a `calculate`
element. -/
theorem c5_missing_label_or_hint (ctx : Ctx) (survey : SE)
    (parent? : Option SE) (ancs : List SE) (e : SE) (lv hv gv tpv nv : Value)
    (hlab : getattrE ctx e "label" = .ok lv) (hlv : truthy lv = false)
    (hmed : getattrE ctx e "media" = .ok (.vd []))
    (hhint : getattrE ctx e "hint" = .ok hv) (hhv : truthy hv = false)
    (hgh : getattrE ctx e "guidance_hint" = .ok gv) (hgv : truthy gv = false)
    (htyp : getattrE ctx e "type" = .ok tpv)
    (hname : getattrE ctx e "name" = .ok nv)
    (hann : ctx.is_annotated_form = false) :
    xml_label_and_hint ctx survey parent? ancs e =
      .error ("The survey element named \x27" ++ pyStr nv
        ++ "\x27 has no label or hint.")
    ∧ xml_label_and_hint { ctx with is_annotated_form := true } survey
        parent? ancs e =
      (if isStrV tpv "calculate" then
        (xml_label { ctx with is_annotated_form := true } survey parent?
          ancs e).map (fun ln => [ln])
      else .ok []) := by
  constructor
  · unfold xml_label_and_hint
    rw [hlab, hmed, hhint, hgh, htyp, hname]
    simp [hlv, hhv, hgv, hann, Bind.bind, Except.bind, Pure.pure,
      Except.pure, pyIn, dictHas, dictGet?,
      show truthy (Value.vd []) = false from rfl]
  · have hlab' : getattrE { ctx with is_annotated_form := true } e "label" = .ok lv := hlab
    have hmed' : getattrE { ctx with is_annotated_form := true } e "media" = .ok (.vd []) := hmed
    have hhint' : getattrE { ctx with is_annotated_form := true } e "hint" = .ok hv := hhint
    have hgh' : getattrE { ctx with is_annotated_form := true } e "guidance_hint" = .ok gv := hgh
    have htyp' : getattrE { ctx with is_annotated_form := true } e "type" = .ok tpv := htyp
    have hname' : getattrE { ctx with is_annotated_form := true } e "name" = .ok nv := hname
    unfold xml_label_and_hint
    rw [hlab', hmed', hhint', hgh', htyp', hname']
    rcases htc : isStrV tpv "calculate" with _ | _
    · simp [hlv, hhv, hgv, htc, Bind.bind, Except.bind, Pure.pure,
        Except.pure, pyIn, dictHas, dictGet?,
        show truthy (Value.vd []) = false from rfl]
    · cases hxl : xml_label { ctx with is_annotated_form := true } survey
          parent? ancs e with
      | error m =>
          simp [hlv, hhv, hgv, htc, hxl, Bind.bind, Except.bind, Pure.pure,
            Except.pure, Except.map]
      | ok ln =>
          simp [hlv, hhv, hgv, htc, hxl, Bind.bind, Except.bind, Pure.pure,
            Except.pure, Except.map, pyIn, dictHas, dictGet?,
            show truthy (Value.vd []) = false from rfl]

/-- The non-annotated context of the C5 witness. -/
def c5ctx : Ctx := {
  question_type_dict := fun _ => [],
  is_annotated_form := false,
  annotated_fields := [],
  insert_xpaths := fun v => v,
  insert_output_values := fun s => (s, false),
  default_is_dynamic := fun _ _ => false }

/-- The survey root (and parent) of the C5 witness. -/
def c5survey : SE := .node [("type", .vs "survey"), ("name", .vs "data")] []

/-- The element of the C5 witness: a `calculate`-typed element with only
a name — every text field empty. -/
def c5calc : SE := .node [("name", .vs "q"), ("type", .vs "calculate")] []

/-- Witness for C5 at a concrete label-less `calculate` element: the
non-annotated form raises the naming error, the annotated form raises
nothing and emits the lone (empty-text) label fragment. -/
theorem c5_missing_label_or_hint_witness :
    xml_label_and_hint c5ctx c5survey (some c5survey) [c5survey] c5calc =
      .error "The survey element named \x27q\x27 has no label or hint."
    ∧ xml_label_and_hint { c5ctx with is_annotated_form := true } c5survey
        (some c5survey) [c5survey] c5calc =
      .ok [{ tag := "label", attrs := [], text := some "", toParse := false }] :=
  c5_missing_label_or_hint c5ctx c5survey (some c5survey) [c5survey] c5calc
    (.vs "") (.vs "") (.vs "") (.vs "calculate") (.vs "q")
    rfl rfl rfl rfl rfl rfl rfl rfl rfl rfl

/-- The `setvalue` fragment built by
`get_setvalue_node_for_dynamic_default` outside a repeat. -/
def setvalueFrag (xp : String) (v : Value) : XNode :=
  { tag := "setvalue",
    attrs := [("ref", .vs xp), ("value", v),
              ("event", .vs "odk-instance-first-load")],
    text := none, toParse := false }

/-- C8: in the per-descendant step of `xml_descendent_bindings`, a
`setvalue` fragment with event `odk-instance-first-load` is appended for
exactly those descendants with a truthy default recognized as dynamic,
not suppressed by annotation mode (`"default"` among the annotated
fields of an annotated form), and with no repeat-typed element in their
lineage: the step's output is the binding fragments followed by the
`setvalue` fragment precisely when all four conditions hold, and by
nothing otherwise — in particular a descendant nested in a repeat, a
non-dynamic or empty default, or an annotation-suppressed one
contributes no `setvalue` fragment at this layer. -/
theorem c8_dynamic_default_setvalue (ctx : Ctx) (survey : SE)
    (ancs : List SE) (e : SE) (bs : Option (List XNode)) (dv tv : Value)
    (xp : String) (n : Nat)
    (hxb : xml_bindings ctx survey ancs e = .ok bs)
    (hdv : getattrE ctx e "default" = .ok dv)
    (htv : getattrE ctx e "type" = .ok tv)
    (hxp : getXpathSE ctx ancs e = .ok xp)
    (hcnt : countLineageRepeats ctx ancs e = .ok n) :
    descBindStep ctx survey ancs e =
      .ok ((match bs with | some l => l | none => []) ++
        (if truthy dv && ctx.default_is_dynamic dv tv
            && !(ctx.is_annotated_form && ctx.annotated_fields.contains "default")
            && (n == 0)
         then [setvalueFrag xp (ctx.insert_xpaths dv)] else [])) := by
  have hsv : get_setvalue_node_for_dynamic_default ctx survey ancs e false =
      .ok (if truthy dv && ctx.default_is_dynamic dv tv
            && !(ctx.is_annotated_form && ctx.annotated_fields.contains "default")
          then some (setvalueFrag xp (ctx.insert_xpaths dv)) else none) := by
    unfold get_setvalue_node_for_dynamic_default
    rw [hdv, htv]
    rcases h1 : truthy dv <;>
      rcases h2 : ctx.default_is_dynamic dv tv <;>
      rcases h3 : ctx.is_annotated_form && ctx.annotated_fields.contains "default" <;>
      simp [h1, h2, h3, hxp, Bind.bind, Except.bind, Pure.pure, Except.pure,
        setvalueFrag] <;>
      first
        | (intro ha
           rw [ha] at h3
           simpa using h3)
        | simpa using h3
  cases bs <;>
    rcases hC : (truthy dv && ctx.default_is_dynamic dv tv
      && !(ctx.is_annotated_form && ctx.annotated_fields.contains "default")) <;>
    rcases hn : (n == 0) <;>
    (have hsv2 := hsv
     rw [hC] at hsv2
     simp at hsv2
     simp [descBindStep, hxb, hcnt, hsv2, hC, hn, Bind.bind, Except.bind,
       Pure.pure, Except.pure])

/-- The context of the C8 witness: every default counts as dynamic. -/
def c8ctx : Ctx := {
  question_type_dict := fun _ => [],
  is_annotated_form := false,
  annotated_fields := [],
  insert_xpaths := fun v => v,
  insert_output_values := fun s => (s, false),
  default_is_dynamic := fun _ _ => true }

/-- The survey root of the C8 witness. -/
def c8survey : SE := .node [("name", .vs "data"), ("type", .vs "survey")] []

/-- The element of the C8 witness: `default="today()"`, no repeat
anywhere in its lineage. -/
def c8elem : SE :=
  .node [("name", .vs "q"), ("type", .vs "string"),
         ("default", .vs "today()")] []

/-- Witness for C8 at a concrete dynamic-default element outside any
repeat: the step emits exactly the one `setvalue` fragment. -/
theorem c8_dynamic_default_setvalue_witness :
    descBindStep c8ctx c8survey [c8survey] c8elem =
      .ok [setvalueFrag "/data/q" (.vs "today()")] :=
  c8_dynamic_default_setvalue c8ctx c8survey [c8survey] c8elem none
    (.vs "today()") (.vs "string") "/data/q" 0
    rfl rfl rfl rfl rfl

/-- C10: `xml_bindings` and `xml_action` leave the element unchanged —
both operate on copies of the stored bind and action mappings, so
whenever the stateful translations succeed they return the element
exactly as it was. -/
theorem c10_frame_bindings_action (ctx : Ctx) (survey : SE)
    (ancs : List SE) (e : SE) :
    (∀ r e', xml_bindings_st ctx survey ancs e = .ok (r, e') → e' = e)
    ∧ (∀ r e', xml_action_st ctx ancs e = .ok (r, e') → e' = e) := by
  constructor
  · intro r e' h
    unfold xml_bindings_st at h
    repeat' split at h
    any_goals simp_all
    all_goals
      (generalize hg : mkBindNode ctx ancs e _ = mk at h
       cases mk with
       | error m => exact Except.noConfusion h
       | ok ns =>
           injection h with h1
           injection h1 with h2 h3
           exact h3.symm)
  · intro r e' h
    unfold xml_action_st at h
    repeat' split at h
    all_goals simp_all

/-- Witness for C10 at a concrete element (a flat element whose binding
generation returns none and whose empty action returns none, in both
cases with the element returned unchanged). -/
theorem c10_frame_bindings_action_witness :
    xml_bindings_st c4ctx c4elem [] c4elem = .ok (none, c4elem)
    ∧ c4elem = c4elem :=
  ⟨rfl, (c10_frame_bindings_action c4ctx c4elem [] c4elem).1 none c4elem rfl⟩
